import Mathlib

set_option maxHeartbeats 1000000

/-!
Verification of the SCPI protocol engine and GPIB transport layer
(python-scpi, directory src/scpi): a shallow embedding of
SCPIProtocol.command / ask / get_error / check_error, of
BaseTransport.message_received, of GPIBDeviceTransport, of
PrologixGPIBTransport.set_address and scan_devices, and of the
BitEnum / ESRBit / STBBit status-register helpers, together with
theorems about the embedded code.
-/

namespace Scpi

/-- Python exception values that the embedded SCPI code can raise or
propagate: asyncio.TimeoutError, asyncio.CancelledError, the CommandError
class from scpi.errors (carrying command, code and message), and the
builtin ValueError, RuntimeError, TypeError and AttributeError. -/
inductive PyErr where
  | timeoutError : PyErr
  | cancelledError : PyErr
  | commandError (command : String) (code : Int) (message : String) : PyErr
  | valueError (response : String) : PyErr
  | runtimeError (msg : String) : PyErr
  | typeError (msg : String) : PyErr
  | attributeError (name : String) : PyErr
  deriving DecidableEq, Repr

/-- Outcome of running a piece of Python code: a normal return value or a
raised exception. -/
inductive PyResult (α : Type) where
  | ok (value : α) : PyResult α
  | exn (e : PyErr) : PyResult α
  deriving DecidableEq, Repr

/-- Numeric value of a run of ASCII digit characters, as computed by the
Python int() constructor on the digits of the matched group. -/
def digitsToNat (cs : List Char) : Nat :=
  cs.foldl (fun acc c => 10 * acc + (c.toNat - Char.toNat '0')) 0

/-- The lazy group (.*?) of ERROR_RE together with its closing double quote:
the shortest run of characters up to the next double quote, where every
character must match the dot of the re module (anything except a newline).
Returns the group text when the pattern part matches. -/
def lazyQuotedBody : List Char → Option (List Char)
  | [] => none
  | c :: cs =>
    if c = '"' then some []
    else if c = '\n' then none
    else
      match lazyQuotedBody cs with
      | some body => some (c :: body)
      | none => none

/-- Attempt to match ERROR_RE, the compiled pattern
([+-]?\d+),"(.*?)" of scpi.py, anchored at the head of the character
list: an optional sign, a nonempty greedy digit run, a comma, an opening
quote, the lazy body and the closing quote. The first capture group is fed
to int(), which the sign and digitsToNat model. A greedy digit run is
exact here: shortening the run by backtracking would leave a digit where
the comma is required, so no match at this start is lost. -/
def errorReMatchAt (cs : List Char) : Option (Int × String) :=
  let signRest : Int × List Char :=
    match cs with
    | '+' :: r => (1, r)
    | '-' :: r => (-1, r)
    | _ => (1, cs)
  let ds := signRest.2.takeWhile Char.isDigit
  let rest := signRest.2.dropWhile Char.isDigit
  if ds.isEmpty then none
  else
    match rest with
    | ',' :: '"' :: tail =>
      match lazyQuotedBody tail with
      | some body => some (signRest.1 * (digitsToNat ds : Int), String.mk body)
      | none => none
    | _ => none

/-- The re module search: try the pattern at every start position, leftmost
start first. -/
def errorReSearchAux : List Char → Option (Int × String)
  | [] => none
  | c :: cs =>
    match errorReMatchAt (c :: cs) with
    | some r => some r
    | none => errorReSearchAux cs

/-- ERROR_RE.search(response) of scpi.py, returning the int() of group one
and the text of group two when a match exists. -/
def errorReSearch (s : String) : Option (Int × String) :=
  errorReSearchAux s.data

/-- Observable actions of a command or ask call against its transport. The
lock events make the async-with acquisition and release of
SCPIProtocol.lock explicit; send and recv are the completed
transport.send_command and transport.get_response calls; abort is a
completed transport.abort_command call. -/
inductive Ev where
  | lockAcquire : Ev
  | lockRelease : Ev
  | send (command : String) : Ev
  | recv : Ev
  | abort : Ev
  deriving DecidableEq, Repr

/-- Trace of observable actions of one protocol call. -/
abbrev Trace := List Ev

/-- How asyncio.wait_for(_command(command), timeout) ends in
SCPIProtocol.command. The inner coroutine is
(async with self.lock: await self.transport.send_command(command)).
completed: it ran to the end within the timeout. timeoutBeforeLock and
timeoutInSend: the timer fired while the coroutine was suspended at the
named await point, asyncio cancelled it there (the async-with block
released the lock when it was held), and wait_for raised TimeoutError.
cancelledBeforeLock and cancelledInSend: the same unwinding for an
external cancellation, which wait_for propagates as CancelledError.
failedSend: transport.send_command raised some other exception, which
bubbles out of the lock block. -/
inductive CmdPhase where
  | completed : CmdPhase
  | timeoutBeforeLock : CmdPhase
  | timeoutInSend : CmdPhase
  | cancelledBeforeLock : CmdPhase
  | cancelledInSend : CmdPhase
  | failedSend (e : PyErr) : CmdPhase
  deriving DecidableEq, Repr

/-- How asyncio.wait_for(_ask(command), timeout) ends in SCPIProtocol.ask.
The inner coroutine is (async with self.lock: await send_command; return
await get_response), so it has one more await point than _command; see
CmdPhase for the meaning of the constructors. -/
inductive AskPhase where
  | completed : AskPhase
  | timeoutBeforeLock : AskPhase
  | timeoutInSend : AskPhase
  | timeoutInRecv : AskPhase
  | cancelledBeforeLock : AskPhase
  | cancelledInSend : AskPhase
  | cancelledInRecv : AskPhase
  | failedSend (e : PyErr) : AskPhase
  | failedRecv (e : PyErr) : AskPhase
  deriving DecidableEq, Repr

/-- Trace and outcome of asyncio.wait_for(_command(command), cmd_timeout).
A cancellation before the lock was granted leaves the lock untouched
(the asyncio Lock.acquire does not hold the lock when it is cancelled, and
async-with runs no release when the enter failed); a cancellation inside
send_command unwinds the async-with block, which releases the lock. -/
def waitForCommand (ph : CmdPhase) (command : String) : Trace × PyResult Unit :=
  match ph with
  | .completed => ([.lockAcquire, .send command, .lockRelease], .ok ())
  | .timeoutBeforeLock => ([], .exn .timeoutError)
  | .timeoutInSend => ([.lockAcquire, .lockRelease], .exn .timeoutError)
  | .cancelledBeforeLock => ([], .exn .cancelledError)
  | .cancelledInSend => ([.lockAcquire, .lockRelease], .exn .cancelledError)
  | .failedSend e => ([.lockAcquire, .lockRelease], .exn e)

/-- Trace and outcome of asyncio.wait_for(_ask(command), cmd_timeout),
where response is the text the simulated instrument returns when the
exchange completes. -/
def waitForAsk (ph : AskPhase) (command : String) (response : String) :
    Trace × PyResult String :=
  match ph with
  | .completed => ([.lockAcquire, .send command, .recv, .lockRelease], .ok response)
  | .timeoutBeforeLock => ([], .exn .timeoutError)
  | .timeoutInSend => ([.lockAcquire, .lockRelease], .exn .timeoutError)
  | .timeoutInRecv => ([.lockAcquire, .send command, .lockRelease], .exn .timeoutError)
  | .cancelledBeforeLock => ([], .exn .cancelledError)
  | .cancelledInSend => ([.lockAcquire, .lockRelease], .exn .cancelledError)
  | .cancelledInRecv => ([.lockAcquire, .send command, .lockRelease], .exn .cancelledError)
  | .failedSend e => ([.lockAcquire, .lockRelease], .exn e)
  | .failedRecv e => ([.lockAcquire, .send command, .lockRelease], .exn e)

/-- Behaviour of the simulated transport for the single SYST:ERR? exchange
that get_error performs: how its wait_for ends and the reply text when it
completes. -/
structure ErrExchange where
  phase : AskPhase
  response : String

/-- SCPIProtocol.ask in the configuration get_error uses: auto_check_error
is False and abort_on_timeout keeps its default True, so the except
TimeoutError arm skips the error check, calls self.abort_command() and
re-raises the timeout; an except CancelledError arm logs and re-raises;
every other exception bubbles up as is. -/
def askNoCheck (env : ErrExchange) (command : String) : Trace × PyResult String :=
  match (waitForAsk env.phase command env.response).2 with
  | .exn .timeoutError =>
    ((waitForAsk env.phase command env.response).1 ++ [.abort], .exn .timeoutError)
  | r => ((waitForAsk env.phase command env.response).1, r)

/-- SCPIProtocol.get_error: when self dot underscore-checking-error is
already set, raise RuntimeError before entering the try block (the flag is
left as it was, it belongs to the outer call); otherwise set the flag, ask
"SYST:ERR?" with auto_check_error disabled, parse the reply with ERROR_RE
raising ValueError when there is no match, and clear the flag in the
finally block on every exit. Returns the trace, the outcome and the final
value of the flag. -/
def get_error (checking : Bool) (env : ErrExchange) :
    Trace × PyResult (Int × String) × Bool :=
  if checking then
    ([], .exn (.runtimeError "Recursion on get_error detected"), checking)
  else
    match (askNoCheck env "SYST:ERR?").2 with
    | .ok response =>
      match errorReSearch response with
      | none => ((askNoCheck env "SYST:ERR?").1, .exn (.valueError response), false)
      | some (code, errstr) => ((askNoCheck env "SYST:ERR?").1, .ok (code, errstr), false)
    | .exn e => ((askNoCheck env "SYST:ERR?").1, .exn e, false)

/-- SCPIProtocol.check_error: call get_error and raise
CommandError(prev_command, code, errstr) when the reported code is not
zero. -/
def check_error (checking : Bool) (env : ErrExchange) (prev_command : String) :
    Trace × PyResult Unit × Bool :=
  match (get_error checking env).2.1 with
  | .ok (code, errstr) =>
    if code ≠ 0 then
      ((get_error checking env).1, .exn (.commandError prev_command code errstr),
        (get_error checking env).2.2)
    else ((get_error checking env).1, .ok (), (get_error checking env).2.2)
  | .exn e => ((get_error checking env).1, .exn e, (get_error checking env).2.2)

/-- Behaviour of the simulated transport for one SCPIProtocol.command call:
the phase of the main exchange and, when the error-check path is taken,
the behaviour of its SYST:ERR? exchange. -/
structure CommandEnv where
  phase : CmdPhase
  errExchange : ErrExchange

/-- SCPIProtocol.command: wait_for the locked send; on TimeoutError run
check_error(command) when auto_check_error is set (an exception it raises
propagates immediately), then call abort_command when abort_on_timeout is
set, then re-raise the timeout; on CancelledError log and return normally;
let every other exception bubble up. Returns the trace, the outcome and
the final reentrancy flag. -/
def command (checking : Bool) (env : CommandEnv) (cmd : String)
    (abort_on_timeout : Bool) (auto_check_error : Bool) :
    Trace × PyResult Unit × Bool :=
  match (waitForCommand env.phase cmd).2 with
  | .exn .timeoutError =>
    if auto_check_error then
      match (check_error checking env.errExchange cmd).2.1 with
      | .ok _ =>
        if abort_on_timeout then
          ((waitForCommand env.phase cmd).1 ++ (check_error checking env.errExchange cmd).1
              ++ [.abort],
            .exn .timeoutError, (check_error checking env.errExchange cmd).2.2)
        else
          ((waitForCommand env.phase cmd).1 ++ (check_error checking env.errExchange cmd).1,
            .exn .timeoutError, (check_error checking env.errExchange cmd).2.2)
      | .exn e =>
        ((waitForCommand env.phase cmd).1 ++ (check_error checking env.errExchange cmd).1,
          .exn e, (check_error checking env.errExchange cmd).2.2)
    else
      if abort_on_timeout then
        ((waitForCommand env.phase cmd).1 ++ [.abort], .exn .timeoutError, checking)
      else ((waitForCommand env.phase cmd).1, .exn .timeoutError, checking)
  | .exn .cancelledError => ((waitForCommand env.phase cmd).1, .ok (), checking)
  | r => ((waitForCommand env.phase cmd).1, r, checking)

/-- Behaviour of the simulated transport for one SCPIProtocol.ask call. -/
structure AskEnv where
  phase : AskPhase
  response : String
  errExchange : ErrExchange

/-- SCPIProtocol.ask: like command but the inner coroutine also awaits
transport.get_response and returns its text, and the except CancelledError
arm logs and then re-raises instead of returning. -/
def ask (checking : Bool) (env : AskEnv) (cmd : String)
    (abort_on_timeout : Bool) (auto_check_error : Bool) :
    Trace × PyResult String × Bool :=
  match (waitForAsk env.phase cmd env.response).2 with
  | .exn .timeoutError =>
    if auto_check_error then
      match (check_error checking env.errExchange cmd).2.1 with
      | .ok _ =>
        if abort_on_timeout then
          ((waitForAsk env.phase cmd env.response).1
              ++ (check_error checking env.errExchange cmd).1 ++ [.abort],
            .exn .timeoutError, (check_error checking env.errExchange cmd).2.2)
        else
          ((waitForAsk env.phase cmd env.response).1
              ++ (check_error checking env.errExchange cmd).1,
            .exn .timeoutError, (check_error checking env.errExchange cmd).2.2)
      | .exn e =>
        ((waitForAsk env.phase cmd env.response).1
            ++ (check_error checking env.errExchange cmd).1,
          .exn e, (check_error checking env.errExchange cmd).2.2)
    else
      if abort_on_timeout then
        ((waitForAsk env.phase cmd env.response).1 ++ [.abort], .exn .timeoutError, checking)
      else ((waitForAsk env.phase cmd env.response).1, .exn .timeoutError, checking)
  | .exn .cancelledError =>
    ((waitForAsk env.phase cmd env.response).1, .exn .cancelledError, checking)
  | r => ((waitForAsk env.phase cmd env.response).1, r, checking)

/-- Run a trace through the state of the protocol lock: some h is the
final held state, none is a violation, that is acquiring a lock that is
already held, releasing a lock that is free, or touching the transport
(send or recv) while not holding the lock. -/
def lockRun : Bool → Trace → Option Bool
  | held, [] => some held
  | held, .lockAcquire :: tr => if held then none else lockRun true tr
  | held, .lockRelease :: tr => if held then lockRun false tr else none
  | held, .send _ :: tr => if held then lockRun held tr else none
  | held, .recv :: tr => if held then lockRun held tr else none
  | held, .abort :: tr => lockRun held tr

/-- Number of occurrences of one event in a trace. -/
def countEv (e : Ev) (tr : Trace) : Nat :=
  tr.countP (fun x => decide (x = e))

/-- Callback slots of a BaseTransport. A registered callback is identified
by a number; message_callback is the single-shot expected-response slot,
unsolicited_message_callback the optional unsolicited handler. -/
structure CallbackState where
  message_callback : Option Nat
  unsolicited_message_callback : Option Nat
  deriving DecidableEq, Repr

/-- Where BaseTransport.message_received sent one framed message: to the
registered response callback, to the unsolicited handler, or logged and
discarded. The delivered message text is carried along. -/
inductive Delivery where
  | toResponseCallback (cb : Nat) (message : String) : Delivery
  | toUnsolicitedCallback (cb : Nat) (message : String) : Delivery
  | loggedAndDiscarded : Delivery
  deriving DecidableEq, Repr

/-- BaseTransport.message_received: when message_callback is set, call it
with the message and clear the slot, then return; otherwise fall through
to unsolicited_message_callback when that is set; otherwise log that there
is no callback and drop the message. -/
def message_received (st : CallbackState) (message : String) :
    Delivery × CallbackState :=
  match st.message_callback with
  | some cb => (.toResponseCallback cb message, { st with message_callback := none })
  | none =>
    match st.unsolicited_message_callback with
    | some cb => (.toUnsolicitedCallback cb message, st)
    | none => (.loggedAndDiscarded, st)

/-- Observable actions a GPIBDeviceTransport performs on its underlying
GPIB bus transport: the addressing call and the delegated operations. -/
inductive BusEv where
  | setAddr (primary : Int) (secondary : Option Int) : BusEv
  | busSend (command : String) : BusEv
  | busRead : BusEv
  | busAbort : BusEv
  | busClr : BusEv
  | busLlo : BusEv
  | busLoc : BusEv
  deriving DecidableEq, Repr

/-- Shared mutable bus state: the currently addressed device of the bus
transport (none when no address was selected yet). Only setAddr changes
it; every delegated operation acts on whatever device is addressed. -/
def busStep (st : Option (Int × Option Int)) : BusEv → Option (Int × Option Int)
  | .setAddr p s => some (p, s)
  | _ => st

/-- The post-init normalisation of GPIBDeviceTransport: a bare int address
becomes the pair of the int and no secondary address. -/
def normalizeAddress : Int ⊕ (Int × Option Int) → Int × Option Int
  | .inl p => (p, none)
  | .inr a => a

/-- GPIBDeviceTransport: a bus transport reference is implicit (operations
are returned as bus events); the bound address is immutable and already
normalised. -/
structure GPIBDeviceTransport where
  address : Int × Option Int
  deriving DecidableEq, Repr

/-- GPIBDeviceTransport dot underscore-set-ll-address: call
lltransport.set_address with the two components of the bound address. -/
def GPIBDeviceTransport.setLlAddress (dt : GPIBDeviceTransport) : BusEv :=
  .setAddr dt.address.1 dt.address.2

/-- The six public operations of GPIBDeviceTransport. -/
inductive DevOp where
  | send_command (command : String) : DevOp
  | get_response : DevOp
  | abort_command : DevOp
  | send_scd : DevOp
  | send_llo : DevOp
  | send_loc : DevOp
  deriving DecidableEq, Repr

/-- The bus operation each GPIBDeviceTransport method delegates to after
addressing: send_command forwards the command text, get_response reads,
abort_command aborts, send_scd sends Selected Device Clear, send_llo and
send_loc the local-lockout and local messages. -/
def delegatedEv : DevOp → BusEv
  | .send_command c => .busSend c
  | .get_response => .busRead
  | .abort_command => .busAbort
  | .send_scd => .busClr
  | .send_llo => .busLlo
  | .send_loc => .busLoc

/-- Trace of bus operations one GPIBDeviceTransport method performs: each
method first awaits the addressing call and then delegates to the
corresponding bus transport method. -/
def GPIBDeviceTransport.opTrace (dt : GPIBDeviceTransport) (op : DevOp) : List BusEv :=
  [dt.setLlAddress, delegatedEv op]

/-- PrologixGPIBTransport.set_address confirmation loop, with the
controller modelled as the sequence of addresses its query_address
reports: reported n is the pair the n-th query of this loop returns. The
while-True loop of the source has no iteration bound, so it is embedded
with explicit fuel; some k means the loop exits after the query numbered
k, none means the fuel ran out with every query so far disagreeing. -/
def setAddressLoop (reported : Nat → Int × Option Int) (primary : Int)
    (secondary : Option Int) : Nat → Nat → Option Nat
  | _, 0 => none
  | k, fuel + 1 =>
    if reported k = (primary, secondary) then some k
    else setAddressLoop reported primary secondary (k + 1) fuel

/-- PrologixGPIBTransport.set_address: send the plus-plus-addr command for
the requested address, then poll query_address until it reports exactly
the requested pair. -/
def set_address (reported : Nat → Int × Option Int) (primary : Int)
    (secondary : Option Int) (fuel : Nat) : Option Nat :=
  setAddressLoop reported primary secondary 0 fuel

/-- Simulated GPIB bus behind a Prologix controller for scan_devices. The
controller itself answers its control channel promptly and confirms
addressing immediately. pollOk a states whether the serial poll of primary
address a completes within the per-address scan budget (under the
shortened read timeout the scan installs); idnResponse a is the reply of
device a to *IDN?, none when that read times out. addr and readTmoMs are
the shared controller state the scan must save and restore. -/
structure GPIBBusSim where
  pollOk : Nat → Bool
  idnResponse : Nat → Option String
  addr : Int × Option Int
  readTmoMs : Int

/-- One iteration of the scan sweep over primary address a: the inner
coroutine runs set_address(addr) and then poll() under
asyncio.wait_for(SCAN_DEVICE_TIMEOUT); the addressing step completes
either way, so the bus address becomes (a, none); the address is appended
to found_addresses only when the poll succeeded, and a TimeoutError or
CancelledError of the guarded block is swallowed by the except arm. -/
def scanSweepStep (pollOk : Nat → Bool) (acc : List Nat × (Int × Option Int))
    (a : Nat) : List Nat × (Int × Option Int) :=
  if pollOk a then (acc.1 ++ [a], ((a : Int), none)) else (acc.1, ((a : Int), none))

/-- The identity phase of scan_devices: for each discovered address, run
set_address(addr), send *IDN? and read the response. A response read that
times out raises TimeoutError out of the loop (scan_devices has no
handler there), leaving the bus addressed to the failing device; the
second component is the bus address when the loop ends. -/
def idnLoop (idn : Nat → Option String) :
    List Nat → (Int × Option Int) → PyResult (List (Nat × String)) × (Int × Option Int)
  | [], st => (.ok [], st)
  | a :: rest, _ =>
    match idn a with
    | none => (.exn .timeoutError, ((a : Int), none))
    | some s =>
      match (idnLoop idn rest ((a : Int), none)).1 with
      | .ok tail => (.ok ((a, s) :: tail), (idnLoop idn rest ((a : Int), none)).2)
      | .exn e => (.exn e, (idnLoop idn rest ((a : Int), none)).2)

/-- PrologixGPIBTransport.scan_devices: save the currently addressed
device and the controller read timeout, shrink the read timeout to half
the per-address budget, sweep primary addresses 0 to 30 with per-address
timeouts swallowed, write the previous read timeout back (this happens
before the identity phase), sleep to settle, gather *IDN? replies for the
found addresses, re-address the previously addressed device and return
the ordered pairs. The function body has no try-finally, so an exception
escaping the identity phase propagates immediately: the read timeout was
already restored by then, but the addressed-device restoration is
skipped. -/
def scan_devices (bus : GPIBBusSim) : PyResult (List (Nat × String)) × GPIBBusSim :=
  let prevAddr := bus.addr
  let prevReadTmo := bus.readTmoMs
  let sweep := (List.range 31).foldl (scanSweepStep bus.pollOk) ([], bus.addr)
  match (idnLoop bus.idnResponse sweep.1 sweep.2).1 with
  | .ok pairs =>
    (.ok pairs,
      { pollOk := bus.pollOk, idnResponse := bus.idnResponse,
        addr := prevAddr, readTmoMs := prevReadTmo })
  | .exn e =>
    (.exn e,
      { pollOk := bus.pollOk, idnResponse := bus.idnResponse,
        addr := (idnLoop bus.idnResponse sweep.1 sweep.2).2, readTmoMs := prevReadTmo })

/-- Runtime value of a Python class attribute as seen by getattr on the
class object itself: a plain int class attribute is the int, while a
method defined under the property decorator is a descriptor, so getattr
on the class (not on an instance) returns the property object; the int
its getter would return on an instance is recorded alongside. -/
inductive PyClassAttr where
  | intVal (value : Int) : PyClassAttr
  | propertyObj (getterValue : Int) : PyClassAttr
  deriving DecidableEq, Repr

/-- Class attribute table of ESRBit in scpi.py: every named Event Status
Register bit is declared with the property decorator, so a class-level
getattr yields the property object, not the int the getter returns. -/
def ESRBit.classAttr : String → Option PyClassAttr
  | "power_on" => some (.propertyObj 128)
  | "user_request" => some (.propertyObj 64)
  | "command_error" => some (.propertyObj 32)
  | "exec_error" => some (.propertyObj 16)
  | "device_error" => some (.propertyObj 8)
  | "query_error" => some (.propertyObj 4)
  | "control_request" => some (.propertyObj 2)
  | "operation_complete" => some (.propertyObj 1)
  | _ => none

/-- Class attribute table of STBBit in scpi.py: like ESRBit, every named
STatus Byte register bit and alias is a property. -/
def STBBit.classAttr : String → Option PyClassAttr
  | "rqs_mss" => some (.propertyObj 64)
  | "rqs" => some (.propertyObj 64)
  | "mss" => some (.propertyObj 64)
  | "esb" => some (.propertyObj 32)
  | "event_summary" => some (.propertyObj 32)
  | "mav" => some (.propertyObj 16)
  | "message_available" => some (.propertyObj 16)
  | "eav" => some (.propertyObj 4)
  | "error_available" => some (.propertyObj 4)
  | _ => none

/-- BitEnum.test_bit as a classmethod, with the attribute and operator
semantics of Python explicit: bitval is getattr(cls, bitname), the
typing.cast around it is a runtime no-op, and bool(bitval & statusvalue)
raises TypeError unless bitval is an int, because the and operator is not
defined between a property object and an int. -/
def test_bit (classAttr : String → Option PyClassAttr) (statusvalue : Int)
    (bitname : String) : PyResult Bool :=
  match classAttr bitname with
  | none => .exn (.attributeError bitname)
  | some (.intVal v) => .ok (decide (Int.land v statusvalue ≠ 0))
  | some (.propertyObj _) =>
    .exn (.typeError "unsupported operand types for bitwise and: property and int")

theorem lockRun_append (t1 t2 : Trace) (b : Bool) :
    lockRun b (t1 ++ t2) = (lockRun b t1).bind (fun h => lockRun h t2) := by
  induction t1 generalizing b with
  | nil => simp [lockRun]
  | cons e t ih => cases e <;> cases b <;> simp [lockRun, ih]

theorem lockRun_count (t : Trace) (b b2 : Bool) (h : lockRun b t = some b2) :
    countEv .lockAcquire t + (cond b 1 0)
      = countEv .lockRelease t + (cond b2 1 0) := by
  induction t generalizing b with
  | nil =>
    simp only [lockRun, Option.some.injEq] at h
    subst h
    rfl
  | cons e t ih =>
    cases e <;> cases b <;> simp [lockRun] at h <;>
      · have hh := ih _ h
        cases b2 <;>
          simp [countEv, List.countP_cons, cond_true, cond_false] at hh ⊢ <;>
          omega

theorem lockRun_ff_append (t1 t2 : Trace) (h1 : lockRun false t1 = some false)
    (h2 : lockRun false t2 = some false) : lockRun false (t1 ++ t2) = some false := by
  rw [lockRun_append, h1]
  exact h2

theorem lockRun_waitForCommand (ph : CmdPhase) (cmd : String) :
    lockRun false (waitForCommand ph cmd).1 = some false := by
  cases ph <;> rfl

theorem lockRun_waitForAsk (ph : AskPhase) (cmd resp : String) :
    lockRun false (waitForAsk ph cmd resp).1 = some false := by
  cases ph <;> rfl

theorem askNoCheck_trace (env : ErrExchange) (cmd : String) :
    (askNoCheck env cmd).1 = (waitForAsk env.phase cmd env.response).1
      ∨ (askNoCheck env cmd).1 = (waitForAsk env.phase cmd env.response).1 ++ [.abort] := by
  unfold askNoCheck
  split
  · right; rfl
  · left; rfl

theorem lockRun_askNoCheck (env : ErrExchange) (cmd : String) :
    lockRun false (askNoCheck env cmd).1 = some false := by
  rcases askNoCheck_trace env cmd with h | h <;> rw [h]
  · exact lockRun_waitForAsk ..
  · exact lockRun_ff_append _ _ (lockRun_waitForAsk ..) rfl

theorem get_error_trace (checking : Bool) (env : ErrExchange) :
    (get_error checking env).1
      = if checking then [] else (askNoCheck env "SYST:ERR?").1 := by
  unfold get_error
  split
  · rfl
  · split
    · split <;> rfl
    · rfl

theorem lockRun_get_error (checking : Bool) (env : ErrExchange) :
    lockRun false (get_error checking env).1 = some false := by
  rw [get_error_trace]
  cases checking
  · exact lockRun_askNoCheck ..
  · rfl

theorem check_error_trace (checking : Bool) (env : ErrExchange) (p : String) :
    (check_error checking env p).1 = (get_error checking env).1 := by
  unfold check_error
  split
  · split <;> rfl
  · rfl

theorem lockRun_check_error (checking : Bool) (env : ErrExchange) (p : String) :
    lockRun false (check_error checking env p).1 = some false := by
  rw [check_error_trace]
  exact lockRun_get_error ..

theorem lockRun_command (checking : Bool) (cenv : CommandEnv) (cmd : String)
    (aot ace : Bool) :
    lockRun false (command checking cenv cmd aot ace).1 = some false := by
  unfold command
  split
  · split
    · split
      · split
        · exact lockRun_ff_append _ _
            (lockRun_ff_append _ _ (lockRun_waitForCommand ..) (lockRun_check_error ..)) rfl
        · exact lockRun_ff_append _ _ (lockRun_waitForCommand ..) (lockRun_check_error ..)
      · exact lockRun_ff_append _ _ (lockRun_waitForCommand ..) (lockRun_check_error ..)
    · split
      · exact lockRun_ff_append _ _ (lockRun_waitForCommand ..) rfl
      · exact lockRun_waitForCommand ..
  · exact lockRun_waitForCommand ..
  · exact lockRun_waitForCommand ..

theorem lockRun_ask (checking : Bool) (aenv : AskEnv) (cmd : String)
    (aot ace : Bool) :
    lockRun false (ask checking aenv cmd aot ace).1 = some false := by
  unfold ask
  split
  · split
    · split
      · split
        · exact lockRun_ff_append _ _
            (lockRun_ff_append _ _ (lockRun_waitForAsk ..) (lockRun_check_error ..)) rfl
        · exact lockRun_ff_append _ _ (lockRun_waitForAsk ..) (lockRun_check_error ..)
      · exact lockRun_ff_append _ _ (lockRun_waitForAsk ..) (lockRun_check_error ..)
    · split
      · exact lockRun_ff_append _ _ (lockRun_waitForAsk ..) rfl
      · exact lockRun_waitForAsk ..
  · exact lockRun_waitForAsk ..
  · exact lockRun_waitForAsk ..

theorem lockRun_balanced (t : Trace) (h : lockRun false t = some false) :
    countEv .lockAcquire t = countEv .lockRelease t := by
  have := lockRun_count t false false h
  simpa using this

theorem countEv_append (e : Ev) (t1 t2 : Trace) :
    countEv e (t1 ++ t2) = countEv e t1 + countEv e t2 := by
  simp [countEv, List.countP_append]

theorem countAbort_waitForCommand (ph : CmdPhase) (cmd : String) :
    countEv .abort (waitForCommand ph cmd).1 = 0 := by
  cases ph <;> rfl

theorem countAbort_waitForAsk (ph : AskPhase) (cmd resp : String) :
    countEv .abort (waitForAsk ph cmd resp).1 = 0 := by
  cases ph <;> rfl

theorem get_error_flag (env : ErrExchange) :
    (get_error false env).2.2 = false := by
  unfold get_error
  simp only [Bool.false_eq_true, if_false]
  split
  · split <;> rfl
  · rfl

theorem askNoCheck_completed (eresp cmd : String) :
    askNoCheck ⟨.completed, eresp⟩ cmd
      = ([.lockAcquire, .send cmd, .recv, .lockRelease], .ok eresp) := rfl

theorem get_error_completed_parsed (eresp : String) (code : Int) (text : String)
    (hparse : errorReSearch eresp = some (code, text)) :
    (get_error false ⟨.completed, eresp⟩).2.1 = .ok (code, text) := by
  simp [get_error, askNoCheck, waitForAsk, hparse]

theorem check_error_completed (eresp cmd : String) (code : Int) (text : String)
    (hparse : errorReSearch eresp = some (code, text)) :
    (check_error false ⟨.completed, eresp⟩ cmd).2
      = ((if code ≠ 0 then .exn (.commandError cmd code text) else .ok ()), false) := by
  have h1 := get_error_completed_parsed eresp code text hparse
  have h2 := get_error_flag ⟨.completed, eresp⟩
  unfold check_error
  rw [h1]
  by_cases h0 : code = 0 <;> simp [h0, h2]

theorem countAbort_check_error_completed (eresp cmd : String) :
    countEv .abort (check_error false ⟨.completed, eresp⟩ cmd).1 = 0 := by
  rw [check_error_trace, get_error_trace]
  rfl

/-- Claim C4: for every successful, failed, timed-out or cancelled command
or ask call, the trace of the call respects the transport lock discipline
(the lock is held for the send and the response wait, it is never acquired
while held or released while free, and it is free again at the end) and
the number of releases equals the number of acquisitions, on every exit
path of the embedded code. -/
theorem command_ask_lock_discipline (checking : Bool) (cenv : CommandEnv)
    (aenv : AskEnv) (cmd : String) (aot ace : Bool) :
    lockRun false (command checking cenv cmd aot ace).1 = some false ∧
    countEv .lockAcquire (command checking cenv cmd aot ace).1
      = countEv .lockRelease (command checking cenv cmd aot ace).1 ∧
    lockRun false (ask checking aenv cmd aot ace).1 = some false ∧
    countEv .lockAcquire (ask checking aenv cmd aot ace).1
      = countEv .lockRelease (ask checking aenv cmd aot ace).1 :=
  ⟨lockRun_command .., lockRun_balanced _ (lockRun_command ..),
    lockRun_ask .., lockRun_balanced _ (lockRun_ask ..)⟩

/-- Claim C1: when a command or ask call times out with auto error checking
enabled and the SYST:ERR? exchange completes with a reply reporting
(code, text): for a nonzero code the call raises CommandError carrying
that code and text instead of TimeoutError, and for code zero it re-raises
the TimeoutError. -/
theorem command_ask_timeout_error_disambiguation
    (cph : CmdPhase) (aph : AskPhase) (eresp cmd resp : String) (aot : Bool)
    (code : Int) (text : String)
    (htc : (waitForCommand cph cmd).2 = .exn .timeoutError)
    (hta : (waitForAsk aph cmd resp).2 = .exn .timeoutError)
    (hparse : errorReSearch eresp = some (code, text)) :
    (code ≠ 0 →
      (command false ⟨cph, ⟨.completed, eresp⟩⟩ cmd aot true).2.1
          = .exn (.commandError cmd code text) ∧
      (ask false ⟨aph, resp, ⟨.completed, eresp⟩⟩ cmd aot true).2.1
          = .exn (.commandError cmd code text)) ∧
    (code = 0 →
      (command false ⟨cph, ⟨.completed, eresp⟩⟩ cmd aot true).2.1
          = .exn .timeoutError ∧
      (ask false ⟨aph, resp, ⟨.completed, eresp⟩⟩ cmd aot true).2.1
          = .exn .timeoutError) := by
  have hce := check_error_completed eresp cmd code text hparse
  constructor
  · intro hne
    constructor
    · unfold command
      rw [htc]
      simp [hce, hne]
    · unfold ask
      rw [hta]
      simp [hce, hne]
  · intro h0
    subst h0
    constructor
    · unfold command
      rw [htc]
      simp [hce]
      cases aot <;> simp
    · unfold ask
      rw [hta]
      simp [hce]
      cases aot <;> simp

/-- Witness for claim C1: a command and an ask call that time out while
the instrument error queue reports -113 Undefined header raise exactly
that CommandError. -/
theorem command_ask_timeout_error_disambiguation_witness :
    (command false ⟨.timeoutInSend, ⟨.completed, "-113,\"Undefined header\""⟩⟩
        "CURR 2.0" true true).2.1
      = .exn (.commandError "CURR 2.0" (-113) "Undefined header") ∧
    (ask false ⟨.timeoutInRecv, "", ⟨.completed, "-113,\"Undefined header\""⟩⟩
        "CURR 2.0" true true).2.1
      = .exn (.commandError "CURR 2.0" (-113) "Undefined header") :=
  (command_ask_timeout_error_disambiguation .timeoutInSend .timeoutInRecv
    "-113,\"Undefined header\"" "CURR 2.0" "" true (-113) "Undefined header"
    rfl rfl (by decide)).1 (by decide)

/-- Counterexample to claim C5: a command call that times out with
abort_on_timeout set and whose error check reports code -113 raises
CommandError without invoking abort_command at all: the abort count of its
trace is zero, not one. -/
theorem abort_skipped_on_command_error :
    countEv .abort (command false
        ⟨.timeoutInSend, ⟨.completed, "-113,\"Undefined header\""⟩⟩
        "CURR 2.0" true true).1 = 0 ∧
    (command false ⟨.timeoutInSend, ⟨.completed, "-113,\"Undefined header\""⟩⟩
        "CURR 2.0" true true).2.1
      = .exn (.commandError "CURR 2.0" (-113) "Undefined header") :=
  ⟨rfl, rfl⟩

/-- Claim C5 amended: for a command or ask call that times out with
abort_on_timeout set, abort_command is invoked exactly once when the
timeout is re-raised, that is when the completed error check reports code
zero or when auto error checking is disabled; when the error check
converts the timeout into a CommandError, abort_command is not invoked. -/
theorem abort_on_timeout_amended
    (cph : CmdPhase) (aph : AskPhase) (eresp cmd resp : String)
    (code : Int) (text : String)
    (htc : (waitForCommand cph cmd).2 = .exn .timeoutError)
    (hta : (waitForAsk aph cmd resp).2 = .exn .timeoutError)
    (hparse : errorReSearch eresp = some (code, text)) :
    (code = 0 →
      countEv .abort (command false ⟨cph, ⟨.completed, eresp⟩⟩ cmd true true).1 = 1 ∧
      countEv .abort (ask false ⟨aph, resp, ⟨.completed, eresp⟩⟩ cmd true true).1 = 1) ∧
    (code ≠ 0 →
      countEv .abort (command false ⟨cph, ⟨.completed, eresp⟩⟩ cmd true true).1 = 0 ∧
      countEv .abort (ask false ⟨aph, resp, ⟨.completed, eresp⟩⟩ cmd true true).1 = 0) ∧
    (∀ ee : ErrExchange,
      countEv .abort (command false ⟨cph, ee⟩ cmd true false).1 = 1 ∧
      countEv .abort (ask false ⟨aph, resp, ee⟩ cmd true false).1 = 1) := by
  have hce := check_error_completed eresp cmd code text hparse
  refine ⟨fun h0 => ?_, fun hne => ?_, fun ee => ?_⟩
  · subst h0
    constructor
    · unfold command
      rw [htc]
      simp [hce, countEv_append, countAbort_waitForCommand,
        countAbort_check_error_completed]
      rfl
    · unfold ask
      rw [hta]
      simp [hce, countEv_append, countAbort_waitForAsk,
        countAbort_check_error_completed]
      rfl
  · constructor
    · unfold command
      rw [htc]
      simp [hce, hne, countEv_append, countAbort_waitForCommand,
        countAbort_check_error_completed]
    · unfold ask
      rw [hta]
      simp [hce, hne, countEv_append, countAbort_waitForAsk,
        countAbort_check_error_completed]
  · constructor
    · unfold command
      rw [htc]
      simp [countEv_append, countAbort_waitForCommand]
      rfl
    · unfold ask
      rw [hta]
      simp [countEv_append, countAbort_waitForAsk]
      rfl

/-- Witness for claim C5 amended: with the error queue reporting code zero
a timed-out command call with abort_on_timeout set aborts exactly once. -/
theorem abort_on_timeout_amended_witness :
    countEv .abort (command false ⟨.timeoutInSend, ⟨.completed, "0,\"No error\""⟩⟩
        "CURR 2.0" true true).1 = 1 ∧
    countEv .abort (ask false ⟨.timeoutInRecv, "", ⟨.completed, "0,\"No error\""⟩⟩
        "CURR 2.0" true true).1 = 1 :=
  (abort_on_timeout_amended .timeoutInSend .timeoutInRecv "0,\"No error\""
    "CURR 2.0" "" 0 "No error" rfl rfl (by decide)).1 rfl

/-- Counterexample to claim C6: an externally cancelled ask call does not
terminate without raising, it re-raises the CancelledError. -/
theorem ask_reraises_cancellation :
    (ask false ⟨.cancelledInRecv, "4.998", ⟨.completed, "0,\"No error\""⟩⟩
        "MEAS:VOLT?" true true).2.1 = .exn .cancelledError := rfl

/-- Claim C6 amended: external cancellation of a command call is logged
and swallowed, the call returns normally without raising; an ask call logs
the cancellation and then re-raises it. -/
theorem cancellation_behaviour_amended
    (checking : Bool) (cenv : CommandEnv) (aenv : AskEnv) (cmd : String)
    (aot ace : Bool)
    (hcc : (waitForCommand cenv.phase cmd).2 = .exn .cancelledError)
    (hca : (waitForAsk aenv.phase cmd aenv.response).2 = .exn .cancelledError) :
    (command checking cenv cmd aot ace).2.1 = .ok () ∧
    (ask checking aenv cmd aot ace).2.1 = .exn .cancelledError := by
  constructor
  · unfold command
    rw [hcc]
  · unfold ask
    rw [hca]

/-- Witness for claim C6 amended: cancellation inside the send of a
command call yields a normal return and cancellation inside the response
wait of an ask call re-raises. -/
theorem cancellation_behaviour_amended_witness :
    (command false ⟨.cancelledInSend, ⟨.completed, "0,\"No error\""⟩⟩
        "CURR 2.0" true true).2.1 = .ok () ∧
    (ask false ⟨.cancelledInRecv, "", ⟨.completed, "0,\"No error\""⟩⟩
        "CURR 2.0" true true).2.1 = .exn .cancelledError :=
  cancellation_behaviour_amended false
    ⟨.cancelledInSend, ⟨.completed, "0,\"No error\""⟩⟩
    ⟨.cancelledInRecv, "", ⟨.completed, "0,\"No error\""⟩⟩
    "CURR 2.0" true true rfl rfl

/-- Claim C7: get_error raises a protocol-misuse RuntimeError when
re-entered (leaving the flag of the outer call in place); otherwise it
performs exactly one SYST:ERR? exchange with auto error checking
disabled, parses the reply with the fixed ERROR_RE pattern, returns
(code, text) on a match, raises ValueError on a non-matching reply, and
the reentrancy flag is false again on every non-reentrant exit, so a
malformed reply fails only the current call and later calls stay
usable. -/
theorem get_error_contract (env : ErrExchange) :
    (get_error true env
        = ([], .exn (.runtimeError "Recursion on get_error detected"), true)) ∧
    ((get_error false env).2.2 = false) ∧
    (env.phase = .completed →
      (get_error false env).1
          = [.lockAcquire, .send "SYST:ERR?", .recv, .lockRelease] ∧
      (∀ code text, errorReSearch env.response = some (code, text) →
        (get_error false env).2.1 = .ok (code, text)) ∧
      (errorReSearch env.response = none →
        (get_error false env).2.1 = .exn (.valueError env.response))) := by
  obtain ⟨ph, resp⟩ := env
  refine ⟨rfl, get_error_flag _, fun hph => ?_⟩
  simp only at hph
  subst hph
  refine ⟨?_, fun code text hp => get_error_completed_parsed resp code text hp,
    fun hp => ?_⟩
  · rw [get_error_trace]
    simp [askNoCheck_completed]
  · simp [get_error, askNoCheck, waitForAsk, hp]

/-- Witness for claim C7: a completed exchange with a well-formed reply
parses to its code and text, and one with a malformed reply raises
ValueError. -/
theorem get_error_contract_witness :
    (get_error false ⟨.completed, "-222,\"Data out of range\""⟩).2.1
        = .ok (-222, "Data out of range") ∧
    (get_error false ⟨.completed, "garbage"⟩).2.1 = .exn (.valueError "garbage") :=
  ⟨((get_error_contract ⟨.completed, "-222,\"Data out of range\""⟩).2.2 rfl).2.1
      (-222) "Data out of range" (by decide),
    ((get_error_contract ⟨.completed, "garbage"⟩).2.2 rfl).2.2 (by decide)⟩

/-- Claim C8: message_received delivers an incoming framed message to the
registered response callback when one exists and clears that slot before
returning, so the callback is consumed exactly once; with no response
callback the message goes to the unsolicited callback when set, else it
is logged and discarded; in no case is it held over for a later
expectation. -/
theorem message_received_contract (st : CallbackState) (msg : String) :
    (∀ cb, st.message_callback = some cb →
      message_received st msg
        = (.toResponseCallback cb msg, { st with message_callback := none })) ∧
    (st.message_callback = none →
      ∀ cb, st.unsolicited_message_callback = some cb →
        message_received st msg = (.toUnsolicitedCallback cb msg, st)) ∧
    (st.message_callback = none → st.unsolicited_message_callback = none →
      message_received st msg = (.loggedAndDiscarded, st)) := by
  refine ⟨fun cb h => ?_, fun h cb h2 => ?_, fun h h2 => ?_⟩ <;>
    simp [message_received, *]

/-- Witness for claim C8: the three delivery situations at concrete
callback states. -/
theorem message_received_contract_witness :
    message_received ⟨some 7, some 9⟩ "IDN"
        = (.toResponseCallback 7 "IDN", ⟨none, some 9⟩) ∧
    message_received ⟨none, some 9⟩ "IDN"
        = (.toUnsolicitedCallback 9 "IDN", ⟨none, some 9⟩) ∧
    message_received ⟨none, none⟩ "IDN" = (.loggedAndDiscarded, ⟨none, none⟩) :=
  ⟨(message_received_contract ⟨some 7, some 9⟩ "IDN").1 7 rfl,
    (message_received_contract ⟨none, some 9⟩ "IDN").2.1 rfl 9 rfl,
    (message_received_contract ⟨none, none⟩ "IDN").2.2 rfl rfl⟩

/-- Claim C2: every public operation of GPIBDeviceTransport first awaits
set_address with its own bound address and only then performs the
delegated bus operation: the first bus event of every operation is the
addressing call with the bound address, running that event from any prior
bus state makes the bound address the active one, and the delegated event
itself never changes the active address. -/
theorem gpib_device_transport_readdresses (dt : GPIBDeviceTransport)
    (op : DevOp) (st0 : Option (Int × Option Int)) :
    dt.opTrace op = .setAddr dt.address.1 dt.address.2 :: [delegatedEv op] ∧
    busStep st0 (.setAddr dt.address.1 dt.address.2) = some dt.address ∧
    busStep (some dt.address) (delegatedEv op) = some dt.address := by
  refine ⟨rfl, rfl, ?_⟩
  cases op <;> rfl

/-- Claim C9 tested against the code: test_bit on ESRBit and STBBit does
not return the bitwise-and test, it raises TypeError for every status
value, because the named bits are declared with the property decorator
and getattr on the class returns the property descriptor, whose bitwise
and with an int is undefined. The claim states the documented intent (the
docstrings of set_ese and set_sre build masks from these attributes), so
the code, not the claim, is wrong. -/
theorem test_bit_raises_typeerror_on_property_bits (statusvalue : Int) :
    test_bit ESRBit.classAttr statusvalue "power_on"
        = .exn (.typeError
            "unsupported operand types for bitwise and: property and int") ∧
    test_bit STBBit.classAttr statusvalue "mav"
        = .exn (.typeError
            "unsupported operand types for bitwise and: property and int") :=
  ⟨rfl, rfl⟩

theorem setAddressLoop_confirms (reported : Nat → Int × Option Int) (p : Int)
    (s : Option Int) :
    ∀ fuel k0 k, setAddressLoop reported p s k0 fuel = some k →
      reported k = (p, s) := by
  intro fuel
  induction fuel with
  | zero => intro k0 k h; simp [setAddressLoop] at h
  | succ n ih =>
    intro k0 k h
    unfold setAddressLoop at h
    split at h
    · rename_i hcond
      obtain rfl := Option.some.inj h
      exact hcond
    · exact ih _ _ h

theorem setAddressLoop_stuck (reported : Nat → Int × Option Int) (p : Int)
    (s : Option Int) (hnever : ∀ n, reported n ≠ (p, s)) :
    ∀ fuel k0, setAddressLoop reported p s k0 fuel = none := by
  intro fuel
  induction fuel with
  | zero => intro k0; rfl
  | succ n ih =>
    intro k0
    unfold setAddressLoop
    rw [if_neg (hnever k0)]
    exact ih _

/-- Claim C10: when set_address returns, the last query_address of its
confirmation loop reported exactly the requested (primary, secondary)
pair; and the loop re-polls with no bound on iterations, so for a
controller that never reports the requested pair back the call does not
terminate for any amount of fuel. -/
theorem set_address_confirmation_and_divergence
    (reported : Nat → Int × Option Int) (primary : Int) (secondary : Option Int) :
    (∀ fuel k, set_address reported primary secondary fuel = some k →
      reported k = (primary, secondary)) ∧
    ((∀ n, reported n ≠ (primary, secondary)) →
      ∀ fuel, set_address reported primary secondary fuel = none) :=
  ⟨fun fuel k h => setAddressLoop_confirms reported primary secondary fuel 0 k h,
    fun hnever fuel => setAddressLoop_stuck reported primary secondary hnever fuel 0⟩

/-- Controller that reports the requested address 5 only from the query
numbered 2 of the confirmation loop on. -/
def confirmingController : Nat → Int × Option Int :=
  fun n => if n < 2 then (0, none) else (5, none)

/-- Controller that always reports address 0, never the requested 5. -/
def stuckController : Nat → Int × Option Int :=
  fun _ => (0, none)

theorem stuckController_never (n : Nat) : stuckController n ≠ ((5 : Int), none) := by
  simp [stuckController]

/-- Witness for claim C10: the loop returns at the query where the
controller confirms address 5, and with the stuck controller the call
returns for no fuel. -/
theorem set_address_confirmation_and_divergence_witness :
    confirmingController 2 = (5, none) ∧
    set_address stuckController 5 none 1000 = none :=
  ⟨(set_address_confirmation_and_divergence confirmingController 5 none).1 10 2 rfl,
    (set_address_confirmation_and_divergence stuckController 5 none).2
      stuckController_never 1000⟩

theorem scanSweep_found (pollOk : Nat → Bool) :
    ∀ (l : List Nat) (acc : List Nat) (st : Int × Option Int),
      (l.foldl (scanSweepStep pollOk) (acc, st)).1 = acc ++ l.filter pollOk := by
  intro l
  induction l with
  | nil => intro acc st; simp
  | cons a t ih =>
    intro acc st
    rw [List.foldl_cons]
    by_cases h : pollOk a
    · rw [show scanSweepStep pollOk (acc, st) a = (acc ++ [a], ((a : Int), none))
        from by simp [scanSweepStep, h]]
      rw [ih]
      simp [List.filter_cons, h]
    · rw [show scanSweepStep pollOk (acc, st) a = (acc, ((a : Int), none))
        from by simp [scanSweepStep, h]]
      rw [ih]
      simp [List.filter_cons, h]

theorem idnLoop_all_some (idn : Nat → Option String) :
    ∀ (l : List Nat) (st : Int × Option Int),
      (∀ a ∈ l, (idn a).isSome = true) →
      (idnLoop idn l st).1 = .ok (l.map fun a => (a, (idn a).getD "")) := by
  intro l
  induction l with
  | nil => intro st h; rfl
  | cons a t ih =>
    intro st h
    have ha : (idn a).isSome = true := h a (by simp)
    obtain ⟨s, hs⟩ := Option.isSome_iff_exists.mp ha
    unfold idnLoop
    rw [hs, ih ((a : Int), none) (fun b hb => h b (by simp [hb]))]
    simp [hs]

/-- Claim C3 amended: scan_devices returns exactly the (address, identity)
pairs for the primary addresses 0 to 30 whose poll succeeded, in
ascending address order, and the read timeout is restored on every exit
(the restoring write precedes the identity phase); the addressed device
is restored on normal completion, but the function has no try-finally, so
an identity read that times out escapes without restoring the addressed
device. -/
theorem scan_devices_amended_contract (bus : GPIBBusSim) :
    ((∀ a ∈ (List.range 31).filter bus.pollOk, (bus.idnResponse a).isSome = true) →
      (scan_devices bus).1
          = .ok (((List.range 31).filter bus.pollOk).map
              (fun a => (a, (bus.idnResponse a).getD ""))) ∧
      (scan_devices bus).2.addr = bus.addr) ∧
    (scan_devices bus).2.readTmoMs = bus.readTmoMs := by
  constructor
  · intro hall
    have hfound := scanSweep_found bus.pollOk (List.range 31) [] bus.addr
    rw [List.nil_append] at hfound
    simp only [scan_devices]
    rw [hfound, idnLoop_all_some bus.idnResponse _ _ hall]
    exact ⟨rfl, rfl⟩
  · simp only [scan_devices]
    split <;> rfl

/-- Simulated bus where addresses 3, 5 and 12 answer the poll and every
device answers *IDN?; device 7 was addressed before the scan. -/
def scanDemoBus : GPIBBusSim :=
  { pollOk := fun a => a == 3 || a == 5 || a == 12,
    idnResponse := fun a => some (String.append "dev" (toString a)),
    addr := (7, none), readTmoMs := 1000 }

/-- Witness for claim C3 amended: the demonstration bus yields the three
expected pairs in ascending order and the pre-scan address and read
timeout afterwards. -/
theorem scan_devices_amended_contract_witness :
    (scan_devices scanDemoBus).1
        = .ok [(3, "dev3"), (5, "dev5"), (12, "dev12")] ∧
    (scan_devices scanDemoBus).2.addr = (7, none) ∧
    (scan_devices scanDemoBus).2.readTmoMs = 1000 := by
  have h := scan_devices_amended_contract scanDemoBus
  have h1 := h.1 (by decide)
  refine ⟨?_, ?_, ?_⟩
  · rw [h1.1]; rfl
  · rw [h1.2]; rfl
  · rw [h.2]; rfl

/-- Bus where address 3 answers the poll but its identity query times
out; device 7 was addressed before the scan. -/
def scanFailBus : GPIBBusSim :=
  { pollOk := fun a => a == 3, idnResponse := fun _ => none,
    addr := (7, none), readTmoMs := 1000 }

/-- Counterexample to claim C3: when the identity read of discovered
address 3 times out, scan_devices exits with the TimeoutError and the bus
is left addressed to device 3, not restored to the pre-scan device 7. -/
theorem scan_devices_no_restore_on_idn_timeout :
    (scan_devices scanFailBus).1 = .exn .timeoutError ∧
    (scan_devices scanFailBus).2.addr = (3, none) ∧
    scanFailBus.addr = (7, none) :=
  ⟨rfl, rfl, rfl⟩

end Scpi
